import Mathlib

/-!
Verification of `bin/update_vim_plugins/plugin.py` from the
nixpkgs-vim-extra-plugins repository: a shallow embedding of the
multi-host plugin resolution engine (GitHub, GitLab, SourceHut adapters,
plus the dispatch facade), with theorems settling the specification's
claims about it.

Conventions of the embedding:
 * Python dictionaries parsed from JSON responses are modelled by `Json`.
 * Python exceptions are modelled by `Except ResolveError`; each
   exception-raising primitive (`d[k]`, `list[i]`, `str` coercion,
   `datetime.strptime`, the HTTP-status check in `_api_call`)
   becomes a function into that monad.
 * The outside world (HTTP) is an oracle `Request → HttpResponse`
   passed explicitly; module-load effects (default-argument evaluation,
   the `checked` class attribute) are captured by `loadModule`.
-/

/-- A calendar date, the image of Python's `datetime.date`. -/
structure Date where
  year : Nat
  month : Nat
  day : Nat
deriving DecidableEq, Repr

/-- Zero-pad to two digits, as Python's `str(date)` does for month/day. -/
def pad2 (n : Nat) : String :=
  if n < 10 then "0" ++ toString n else toString n

/-- Zero-pad to four digits, as Python's `str(date)` does for the year. -/
def pad4 (n : Nat) : String :=
  if n < 10 then "000" ++ toString n
  else if n < 100 then "00" ++ toString n
  else if n < 1000 then "0" ++ toString n
  else toString n

/-- Python `str(date)`: ISO `YYYY-MM-DD`. -/
def Date.render (d : Date) : String :=
  pad4 d.year ++ "-" ++ pad2 d.month ++ "-" ++ pad2 d.day

/-- JSON values, the image of Python objects obtained from `response.json()`. -/
inductive Json where
  | null
  | str (s : String)
  | num (n : Int)
  | bool (b : Bool)
  | arr (xs : List Json)
  | obj (fields : List (String × Json))

/-- Python truthiness of a JSON-decoded object (`None`, `""`, `0`, `[]`,
`{}` and `False` are falsy), as used by the `x or y` idiom in the source. -/
def jsonFalsy : Json → Bool
  | .null => true
  | .str s => s = ""
  | .num n => n = 0
  | .bool b => !b
  | .arr xs => xs.isEmpty
  | .obj fs => fs.isEmpty

mutual

/-- Rendering of a JSON value back to text, the image of Python string
formatting applied to a decoded response.  (Python would use `repr`
quoting for strings inside containers; the exact quote style is
immaterial to every property proved below.) -/
def Json.render : Json → String
  | .null => "None"
  | .str s => s
  | .num n => toString n
  | .bool b => if b then "True" else "False"
  | .arr xs => "[" ++ String.intercalate ", " (Json.renderList xs) ++ "]"
  | .obj fs => "\x7b" ++ String.intercalate ", " (Json.renderFields fs) ++ "\x7d"

/-- Renderings of the elements of a JSON list. -/
def Json.renderList : List Json → List String
  | [] => []
  | x :: xs => x.render :: Json.renderList xs

/-- Renderings of the key/value pairs of a JSON object. -/
def Json.renderFields : List (String × Json) → List String
  | [] => []
  | (k, v) :: fs => (k ++ ": " ++ v.render) :: Json.renderFields fs

end

/-- Errors raised during one plugin resolution.  `hostApiError` is the
image of the `RuntimeError` raised by the `_api_call` methods on a
non-200 HTTP status; `notImplementedError` is the image of the
`NotImplementedError` raised by `plugin_from_spec`; the others model the
corresponding Python built-in exceptions. -/
inductive ResolveError where
  | hostApiError (message : String)
  | notImplementedError (message : String)
  | keyError (key : String)
  | indexError
  | typeError (message : String)
  | attributeError (attr : String)
  | valueError (message : String)
deriving DecidableEq, Repr

/-- Python `d[k]` on a decoded JSON object: `KeyError` when the key is
missing, `TypeError` when the object is not a dict. -/
def pyGetItem (j : Json) (k : String) : Except ResolveError Json :=
  match j with
  | .obj fs =>
    match fs.lookup k with
    | some v => pure v
    | none => .error (.keyError k)
  | _ => .error (.typeError "object is not subscriptable")

/-- Python `d.get(k)` (default `None`): `None` when the key is missing,
`AttributeError` when the object is not a dict. -/
def pyGet (j : Json) (k : String) : Except ResolveError Json :=
  match j with
  | .obj fs => pure ((fs.lookup k).getD .null)
  | _ => .error (.attributeError "get")

/-- Python `d.get(k, default)`: the default is returned only when the key
is absent (a present `None` value is returned as `None`). -/
def pyGetD (j : Json) (k : String) (dflt : Json) : Except ResolveError Json :=
  match j with
  | .obj fs => pure ((fs.lookup k).getD dflt)
  | _ => .error (.attributeError "get")

/-- Python `xs[i]` on a decoded JSON list: `IndexError` when out of
range, `TypeError` when the object is not a list. -/
def pyIndex (j : Json) (i : Nat) : Except ResolveError Json :=
  match j with
  | .arr xs =>
    match xs.get? i with
    | some v => pure v
    | none => .error .indexError
  | _ => .error (.typeError "object is not indexable")

/-- Python `str` extraction for a JSON field that the source immediately
uses as a string (calls `.split` on it, interpolates it into a URL).
A non-string raises where Python would raise (`AttributeError` on
`.split`) or be rendered; the model raises `typeError` uniformly. -/
def asStr (j : Json) : Except ResolveError String :=
  match j with
  | .str s => pure s
  | _ => .error (.typeError "expected str")

/-- Characters before the first occurrence of `sep` (the whole list
when `sep` does not occur). -/
def splitHeadAux (sep : List Char) : List Char → List Char
  | [] => []
  | c :: cs => if sep.isPrefixOf (c :: cs) then [] else c :: splitHeadAux sep cs

/-- Python `s.split(sep)[0]` for a nonempty `sep` (the source always
splits on `"T"`): the text before the first occurrence of `sep`, the
whole string when `sep` does not occur. -/
def splitHead (s sep : String) : String :=
  ⟨splitHeadAux sep.toList s.toList⟩

/-- The `License` enum.  Modelled from the spec: the definition lives in
the repository's `nix.py`, which is not part of the sources given; the
spec describes it as a closed catalog of SPDX-style identifiers plus an
`UNKNOWN` (and `UNFREE`) sentinel, with `from_spdx_id` a pure,
case-sensitive exact lookup that never raises and maps an absent or
unrecognized identifier to `UNKNOWN`. -/
inductive License where
  | mit
  | apache20
  | gpl3Only
  | bsd3Clause
  | unfree
  | unknown
deriving DecidableEq, Repr

/-- Modelled from the spec: `License.from_spdx_id` (in the missing
`nix.py`): exact case-sensitive table lookup, absent or unrecognized
identifiers map to `UNKNOWN`, never raises. -/
def License.from_spdx_id : Option String → License
  | none => .unknown
  | some s =>
    if s = "MIT" then .mit
    else if s = "Apache-2.0" then .apache20
    else if s = "GPL-3.0-only" then .gpl3Only
    else if s = "BSD-3-Clause" then .bsd3Clause
    else .unknown

/-- Source descriptors.  `urlSource` is the image of `UrlSource(url)`
and `gitSource` of `GitSource(url, commit)` from the missing `nix.py`;
their constructor arguments are exactly the ones `plugin.py` passes. -/
inductive Source where
  | urlSource (url : String)
  | gitSource (url : String) (commit : String)
deriving DecidableEq, Repr

/-- Modelled from the spec: both source variants expose the location
URL as `.url` (used by `to_markdown`). -/
def Source.url : Source → String
  | .urlSource u => u
  | .gitSource u _ => u

/-- Host discriminator.  Modelled from the spec: `RepositoryHost` lives
in the missing `spec.py`; the spec fixes the three known hosts, and the
`other` constructor stands for any discriminator value outside them,
which is what reaches the dispatcher's final `else` branch. -/
inductive RepositoryHost where
  | github
  | gitlab
  | sourcehut
  | other (s : String)
deriving DecidableEq, Repr

/-- Python `str(host)` as interpolated into the dispatcher's error
message. -/
def RepositoryHost.render : RepositoryHost → String
  | .github => "RepositoryHost.GITHUB"
  | .gitlab => "RepositoryHost.GITLAB"
  | .sourcehut => "RepositoryHost.SOURCEHUT"
  | .other s => s

/-- The plugin reference (`PluginSpec` in the missing `spec.py`), with
exactly the attributes `plugin.py` reads: `name`, `owner`, `repo`,
optional `branch`, optional `license` override, `line`, and the host
discriminator. -/
structure PluginSpec where
  name : String
  owner : String
  repo : String
  branch : Option String
  license : Option License
  line : String
  repository_host : RepositoryHost
deriving DecidableEq, Repr

/-- Python `x or y` for `x : str | None` with a fallible `y` (`y` is
evaluated only when `x` is falsy; the empty string is falsy). -/
def pyOrStr (x : Option String) (y : Except ResolveError String) :
    Except ResolveError String :=
  match x with
  | some s => if s = "" then y else pure s
  | none => y

/-- Python `x or y` for `x : License | None` with a fallible `y`.  Enum
members are truthy in Python, so any present override short-circuits
`y` entirely. -/
def pyOrLicense (x : Option License) (y : Except ResolveError License) :
    Except ResolveError License :=
  match x with
  | some l => pure l
  | none => y

/-- The value stored in the `description` attribute:
`repo_info.get("description") or self.description`, where the class
default is the literal "No description".  A falsy host value (absent,
`None`, empty) degrades to the default; a truthy non-string would be
stored and rendered later, which the model folds into its rendering. -/
def pyDescription (j : Json) : String :=
  if jsonFalsy j then "No description"
  else
    match j with
    | .str s => s
    | j => j.render

/-- The resolved plugin record: the attributes a `VimPlugin` instance
carries.  `updated` is `Option`al because the base class only annotates
it (`updated: date`) without a value: an adapter that never assigns it
leaves the attribute missing, and reading it raises. `checked` is filled
from the class-level default computed at module load. -/
structure VimPlugin where
  name : String
  owner : String
  version : String
  source : Source
  description : String
  homepage : String
  license : License
  source_line : String
  updated : Option Date
  checked : Date
deriving DecidableEq, Repr

/-- `VimPlugin.to_markdown`: renders the report row.  Reading
`self.updated` on an instance whose adapter never assigned it raises
`AttributeError`. -/
def VimPlugin.to_markdown (p : VimPlugin) : Except ResolveError String :=
  match p.updated with
  | none => .error (.attributeError "updated")
  | some u =>
    pure ("| [" ++ p.source_line ++ "](" ++ p.source.url ++ ") | " ++
      u.render ++ " | " ++ p.name ++ " | " ++ p.checked.render ++ " |")

/-- The process environment, read by `os.environ.get`. -/
structure Env where
  github_token : Option String
  sourcehut_token : Option String
deriving DecidableEq, Repr

/-- `_get_github_token`: reads `GITHUB_TOKEN` and returns the token
together with the warning lines it logs (one warning when the variable
is unset). -/
def get_github_token (env : Env) : Option String × List String :=
  match env.github_token with
  | none => (none, ["GITHUB_TOKEN environment variable not set"])
  | some t => (some t, [])

/-- `_get_sourcehut_token`: reads `SOURCEHUT_TOKEN`, same shape. -/
def get_sourcehut_token (env : Env) : Option String × List String :=
  match env.sourcehut_token with
  | none => (none, ["SOURCEHUT_TOKEN environment variable not set"])
  | some t => (some t, [])

/-- The state produced by importing the module.  Python evaluates
`checked: date = datetime.now().date()` in the `VimPlugin` class body,
then the default argument `token=_get_github_token()` of
`GitHubPlugin._api_call`, then `token=_get_sourcehut_token()` of
`SourceHutPlugin._api_call` — all once, at module load. -/
structure ModuleState where
  checked_default : Date
  github_default_token : Option String
  sourcehut_default_token : Option String
  warnings : List String
deriving DecidableEq, Repr

/-- Module import: captures the load-time clock for the `checked` class
attribute and evaluates both `_api_call` token default arguments (with
their warnings, in module order: GitHub first, SourceHut second). -/
def loadModule (env : Env) (now : Date) : ModuleState :=
  let g := get_github_token env
  let s := get_sourcehut_token env
  { checked_default := now
    github_default_token := g.1
    sourcehut_default_token := s.1
    warnings := g.2 ++ s.2 }

/-- An outbound HTTP GET request: URL plus headers, as built by the
`_api_call` methods and passed to `requests.get`. -/
structure Request where
  url : String
  headers : List (String × String)
deriving DecidableEq, Repr

/-- An HTTP response: `status_code`, raw `text`, and the decoded
`response.json()` value. -/
structure HttpResponse where
  status_code : Nat
  text : String
  json : Json

/-- The request built by `GitHubPlugin._api_call` for a given token and
path: `Content-Type` always, `Authorization: token ...` only when a
token is present. -/
def github_request (token : Option String) (path : String) : Request :=
  { url := "https://api.github.com/" ++ path
    headers := [("Content-Type", "application/json")] ++
      (match token with
       | some t => [("Authorization", "token " ++ t)]
       | none => []) }

/-- `GitHubPlugin._api_call` with its default `token` argument: the
token was fixed at module load (Python evaluates default arguments at
function definition time).  Raises `RuntimeError` with the response
text on any non-200 status. -/
def github_api_call (st : ModuleState) (http : Request → HttpResponse)
    (path : String) : Except ResolveError Json :=
  let response := http (github_request st.github_default_token path)
  if response.status_code ≠ 200 then
    .error (.hostApiError ("GitHub API call failed: " ++ response.text))
  else
    pure response.json

/-- The request built by `GitlabPlugin._api_call`: a bare
`requests.get(url)` — no headers, no token. -/
def gitlab_request (path : String) : Request :=
  { url := "https://gitlab.com/api/v4/" ++ path, headers := [] }

/-- `GitlabPlugin._api_call`: raises `RuntimeError` with the response
text on any non-200 status. -/
def gitlab_api_call (http : Request → HttpResponse) (path : String) :
    Except ResolveError Json :=
  let response := http (gitlab_request path)
  if response.status_code ≠ 200 then
    .error (.hostApiError ("Gitlab API call failed: " ++ response.text))
  else
    pure response.json

/-- The request built by `SourceHutPlugin._api_call` (same header shape
as GitHub's). -/
def sourcehut_request (token : Option String) (path : String) : Request :=
  { url := "https://git.sr.ht/api/" ++ path
    headers := [("Content-Type", "application/json")] ++
      (match token with
       | some t => [("Authorization", "token " ++ t)]
       | none => []) }

/-- `SourceHutPlugin._api_call` with its load-time default token.  On a
non-200 status it raises `RuntimeError` interpolating `response.json()`
(the decoded body), unlike the other two adapters which interpolate the
raw text. -/
def sourcehut_api_call (st : ModuleState) (http : Request → HttpResponse)
    (path : String) : Except ResolveError Json :=
  let response := http (sourcehut_request st.sourcehut_default_token path)
  if response.status_code ≠ 200 then
    .error (.hostApiError ("SourceHut API call failed: " ++ response.json.render))
  else
    pure response.json

/-- Python `datetime.strptime(s, fmt).date()` modelled for the two
formats the source uses: parse of the `YYYY-MM-DD` date part shared by
both. The model accepts the zero-padded canonical widths the hosts
emit. -/
def twoDigits (a b : Char) : Option Nat :=
  if a.isDigit ∧ b.isDigit then some ((a.toNat - 48) * 10 + (b.toNat - 48))
  else none

/-- Gregorian leap year. -/
def isLeap (y : Nat) : Bool :=
  (y % 4 = 0 ∧ y % 100 ≠ 0) ∨ y % 400 = 0

/-- Days in a month, as `datetime` validates them. -/
def daysInMonth (y m : Nat) : Nat :=
  if m = 2 then (if isLeap y then 29 else 28)
  else if m = 4 ∨ m = 6 ∨ m = 9 ∨ m = 11 then 30
  else 31

/-- Assemble and validate a `%Y-%m-%d` date from its digit characters,
guarded by the validity of the already-checked time part (the whole
`strptime` raises `ValueError` when any component is out of range). -/
def mkValidDate (y1 y2 y3 y4 mo1 mo2 d1 d2 : Char) (timeOk : Bool) : Option Date :=
  match twoDigits y1 y2, twoDigits y3 y4, twoDigits mo1 mo2, twoDigits d1 d2 with
  | some yh, some yl, some m, some d =>
    let y := yh * 100 + yl
    if timeOk ∧ 1 ≤ m ∧ m ≤ 12 ∧ 1 ≤ d ∧ d ≤ daysInMonth y m then some ⟨y, m, d⟩
    else none
  | _, _, _, _ => none

/-- Two digit characters read as seconds/minutes, range-checked. -/
def twoDigitsLE (a b : Char) (bound : Nat) : Bool :=
  match twoDigits a b with
  | some v => decide (v ≤ bound)
  | none => false

/-- Validate `HH:MM` with ranges as `datetime.strptime` does. -/
def validHourMin (h1 h2 m1 m2 : Char) : Bool :=
  twoDigitsLE h1 h2 23 && twoDigitsLE m1 m2 59

/-- Validate a `%z` timezone suffix (`Z`, `+HHMM`, or `+HH:MM` forms). -/
def validTz : List Char → Bool
  | ['Z'] => true
  | [sg, a, b, c, d] =>
    (sg == '+' || sg == '-') && twoDigitsLE a b 23 && twoDigitsLE c d 59
  | [sg, a, b, ':', c, d] =>
    (sg == '+' || sg == '-') && twoDigitsLE a b 23 && twoDigitsLE c d 59
  | _ => false

/-- Validate the `.%f%z` fraction-and-offset tail of the GitLab
format: one to six fraction digits, then a timezone. -/
def validFracTz (cs : List Char) : Bool :=
  let frac := cs.takeWhile Char.isDigit
  decide (1 ≤ frac.length) && decide (frac.length ≤ 6) &&
    validTz (cs.dropWhile Char.isDigit)

/-- `datetime.strptime(s, '%Y-%m-%dT%H:%M:%SZ').date()` — the GitHub
committer-date format, matched against the canonical zero-padded shape
the host emits; `none` models the `ValueError` on mismatch. -/
def strptime_date_github (s : String) : Option Date :=
  match s.toList with
  | [y1, y2, y3, y4, '-', mo1, mo2, '-', d1, d2, 'T',
     h1, h2, ':', mi1, mi2, ':', s1, s2, 'Z'] =>
    mkValidDate y1 y2 y3 y4 mo1 mo2 d1 d2
      (validHourMin h1 h2 mi1 mi2 && twoDigitsLE s1 s2 61)
  | _ => none

/-- `datetime.strptime(s, '%Y-%m-%dT%H:%M:%S.%f%z').date()` — the
GitLab `created_at` format (sub-second fraction and timezone offset).
`.date()` returns the date as written, without timezone conversion. -/
def strptime_date_gitlab (s : String) : Option Date :=
  match s.toList with
  | y1 :: y2 :: y3 :: y4 :: '-' :: mo1 :: mo2 :: '-' :: d1 :: d2 :: 'T' ::
    h1 :: h2 :: ':' :: mi1 :: mi2 :: ':' :: s1 :: s2 :: '.' :: rest =>
    mkValidDate y1 y2 y3 y4 mo1 mo2 d1 d2
      (validHourMin h1 h2 mi1 mi2 && twoDigitsLE s1 s2 61 && validFracTz rest)
  | _ => none

/-- Lift a `ValueError`-raising parse into the resolution monad. -/
def parseOrValueError (parse : String → Option Date) (s : String) :
    Except ResolveError Date :=
  match parse s with
  | some d => pure d
  | none => .error (.valueError ("time data does not match format: " ++ s))

/-- `urllib.parse.quote(s, safe="")`: percent-encode every byte of every
character outside the unreserved set (letters, digits, `_.-~`). -/
def hexDigitChar (n : Nat) : Char :=
  if n < 10 then Char.ofNat (48 + n) else Char.ofNat (55 + n)

/-- Percent-encode one byte value, uppercase hex as Python does. -/
def percentByte (b : Nat) : String :=
  "%" ++ String.singleton (hexDigitChar (b / 16)) ++
    String.singleton (hexDigitChar (b % 16))

/-- The UTF-8 encoding of one character, as the byte values
`urllib.parse.quote` percent-encodes for non-safe characters. -/
def utf8Bytes (c : Char) : List Nat :=
  let v := c.toNat
  if v ≤ 0x7f then [v]
  else if v ≤ 0x7ff then [0xc0 + v / 64, 0x80 + v % 64]
  else if v ≤ 0xffff then [0xe0 + v / 4096, 0x80 + (v / 64) % 64, 0x80 + v % 64]
  else [0xf0 + v / 262144, 0x80 + (v / 4096) % 64, 0x80 + (v / 64) % 64, 0x80 + v % 64]

/-- `urllib.parse.quote(s, safe="")`: every character outside the
unreserved set (letters, digits, `_.-~`) is percent-encoded bytewise. -/
def urlquote (s : String) : String :=
  s.toList.foldl
    (fun acc c =>
      acc ++
        (if c.isAlphanum ∨ c = '-' ∨ c = '_' ∨ c = '.' ∨ c = '~' then
          String.singleton c
        else
          String.join ((utf8Bytes c).map percentByte)))
    ""

/-- The host-side license lookup of the GitHub adapter:
`License.from_spdx_id((repo_info.get("license") or \x7b\x7d).get("spdx_id"))`.
A non-string `spdx_id` is not a recognized identifier, hence `UNKNOWN`. -/
def github_license_lookup (repo_info : Json) : Except ResolveError License := do
  let licJ ← pyGet repo_info "license"
  let licObj := if jsonFalsy licJ then Json.obj [] else licJ
  let spdx ← pyGet licObj "spdx_id"
  pure (License.from_spdx_id
    (match spdx with
     | .str s => some s
     | _ => none))

/-- `GitHubPlugin.__init__`: the GitHub adapter.  The binds follow the
source's statement order (two API calls, then the attribute assignments
in their written order); `updated` re-reads the same
`latest_commit["committer"]["date"]` entry the `version` assignment
read, which the pure dictionary model shares as `cdate`. -/
def GitHubPlugin_init (st : ModuleState) (http : Request → HttpResponse)
    (ps : PluginSpec) : Except ResolveError VimPlugin := do
  let full_name := ps.owner ++ "/" ++ ps.repo
  let repo_info ← github_api_call st http ("repos/" ++ full_name)
  let default_branch ← pyOrStr ps.branch (pyGetItem repo_info "default_branch" >>= asStr)
  let api_callback ← github_api_call st http
    ("repos/" ++ full_name ++ "/commits/" ++ default_branch)
  let latest_commit ← pyGetItem api_callback "commit"
  let sha ← pyGetItem api_callback "sha" >>= asStr
  let cdate ← (pyGetItem latest_commit "committer" >>= fun c => pyGetItem c "date") >>= asStr
  let descriptionJ ← pyGet repo_info "description"
  let homepage ← pyGetItem repo_info "html_url" >>= asStr
  let license ← pyOrLicense ps.license (github_license_lookup repo_info)
  let updated ← parseOrValueError strptime_date_github cdate
  pure
    { name := ps.name
      owner := ps.owner
      version := splitHead cdate "T"
      source := .urlSource ("https://github.com/" ++ full_name ++ "/archive/" ++ sha ++ ".tar.gz")
      description := pyDescription descriptionJ
      homepage := homepage
      license := license
      source_line := ps.line
      updated := some updated
      checked := st.checked_default }

/-- The host-side license lookup of the GitLab adapter:
`License.from_spdx_id(repo_info.get("license", \x7b\x7d).get("key"))`.
Unlike GitHub's, a present-but-`null` `license` value is passed to
`.get` and raises `AttributeError`. -/
def gitlab_license_lookup (repo_info : Json) : Except ResolveError License := do
  let licJ ← pyGetD repo_info "license" (Json.obj [])
  let key ← pyGet licJ "key"
  pure (License.from_spdx_id
    (match key with
     | .str s => some s
     | _ => none))

/-- `GitlabPlugin.__init__`: the GitLab adapter.  The project path is
percent-encoded as a single segment; `version` comes from
`committed_date` via `split("T")[0]`, while `updated` comes from
`created_at` via `strptime('%Y-%m-%dT%H:%M:%S.%f%z')`. -/
def GitlabPlugin_init (st : ModuleState) (http : Request → HttpResponse)
    (ps : PluginSpec) : Except ResolveError VimPlugin := do
  let full_name := urlquote (ps.owner ++ "/" ++ ps.repo)
  let repo_info ← gitlab_api_call http ("projects/" ++ full_name)
  let default_branch ← pyOrStr ps.branch (pyGetItem repo_info "default_branch" >>= asStr)
  let api_callback ← gitlab_api_call http
    ("projects/" ++ full_name ++ "/repository/branches/" ++ default_branch)
  let latest_commit ← pyGetItem api_callback "commit"
  let sha ← pyGetItem latest_commit "id" >>= asStr
  let committed_date ← pyGetItem latest_commit "committed_date" >>= asStr
  let descriptionJ ← pyGet repo_info "description"
  let homepage ← pyGetItem repo_info "web_url" >>= asStr
  let license ← pyOrLicense ps.license (gitlab_license_lookup repo_info)
  let created_at ← pyGetItem latest_commit "created_at" >>= asStr
  let updated ← parseOrValueError strptime_date_gitlab created_at
  pure
    { name := ps.name
      owner := ps.owner
      version := splitHead committed_date "T"
      source := .urlSource ("https://gitlab.com/api/v4/projects/" ++ full_name ++
        "/repository/archive.tar.gz?sha=" ++ sha)
      description := pyDescription descriptionJ
      homepage := homepage
      license := license
      source_line := ps.line
      updated := some updated
      checked := st.checked_default }

/-- The commit-log path queried by `SourceHutPlugin.__init__`: the
`if plugin_spec.branch is None` test of the source (note: `is None`,
so an explicit empty-string branch still takes the scoped path). -/
def sourcehut_log_path (ps : PluginSpec) : String :=
  match ps.branch with
  | none => "~" ++ ps.owner ++ "/repos/" ++ ps.repo ++ "/log"
  | some b => "~" ++ ps.owner ++ "/repos/" ++ ps.repo ++ "/log/" ++ b

/-- `SourceHutPlugin.__init__`: the SourceHut adapter.  The latest
revision is `commits["results"][0]`; the license is the override or
`UNKNOWN` (it cannot be determined via the API); the `updated`
attribute is never assigned. -/
def SourceHutPlugin_init (st : ModuleState) (http : Request → HttpResponse)
    (ps : PluginSpec) : Except ResolveError VimPlugin := do
  let repo_info ← sourcehut_api_call st http ("~" ++ ps.owner ++ "/repos/" ++ ps.repo)
  let commits ← sourcehut_api_call st http (sourcehut_log_path ps)
  let latest_commit ← pyGetItem commits "results" >>= fun r => pyIndex r 0
  let sha ← pyGetItem latest_commit "id" >>= asStr
  let timestamp ← pyGetItem latest_commit "timestamp" >>= asStr
  let descriptionJ ← pyGet repo_info "description"
  let homepage := "https://git.sr.ht/~" ++ ps.owner ++ "/" ++ ps.repo
  pure
    { name := ps.name
      owner := ps.owner
      version := splitHead timestamp "T"
      source := .gitSource homepage sha
      description := pyDescription descriptionJ
      homepage := homepage
      license :=
        (match ps.license with
         | some l => l
         | none => License.unknown)
      source_line := ps.line
      updated := none
      checked := st.checked_default }

/-- `plugin_from_spec`: the dispatch facade.  Pure dispatch on the host
discriminator; an unknown host raises `NotImplementedError`. -/
def plugin_from_spec (st : ModuleState) (http : Request → HttpResponse)
    (ps : PluginSpec) : Except ResolveError VimPlugin :=
  match ps.repository_host with
  | .github => GitHubPlugin_init st http ps
  | .gitlab => GitlabPlugin_init st http ps
  | .sourcehut => SourceHutPlugin_init st http ps
  | .other s =>
    .error (.notImplementedError ("Unsupported source: " ++ RepositoryHost.render (.other s)))

/-! ## Proof infrastructure -/

/-- Bind on `Except` steps over a success. -/
theorem ex_bind_ok {α β : Type} (a : α) (f : α → Except ResolveError β) :
    (Except.ok a >>= f) = f a := rfl

/-- Bind on `Except` propagates an error. -/
theorem ex_bind_err {α β : Type} (e : ResolveError) (f : α → Except ResolveError β) :
    ((Except.error e : Except ResolveError α) >>= f) = Except.error e := rfl

/-- Inversion of a successful bind: both stages succeeded. -/
theorem bind_ok_inv {α β : Type} {e : Except ResolveError α}
    {f : α → Except ResolveError β} {b : β} (h : (e >>= f) = Except.ok b) :
    ∃ a, e = Except.ok a ∧ f a = Except.ok b := by
  cases e with
  | error err =>
    rw [ex_bind_err] at h
    exact absurd h (by simp)
  | ok a =>
    rw [ex_bind_ok] at h
    exact ⟨a, rfl, h⟩

/-- Full inversion of a successful GitHub resolution: every step
succeeded and the record's fields are exactly the source's assignments. -/
theorem GitHubPlugin_init_ok_inv {st : ModuleState} {http : Request → HttpResponse}
    {ps : PluginSpec} {p : VimPlugin}
    (h : GitHubPlugin_init st http ps = Except.ok p) :
    ∃ repo_info default_branch api_callback latest_commit sha cdate descriptionJ homepage license updated,
      github_api_call st http ("repos/" ++ (ps.owner ++ "/" ++ ps.repo)) = Except.ok repo_info ∧
      pyOrStr ps.branch (pyGetItem repo_info "default_branch" >>= asStr) = Except.ok default_branch ∧
      github_api_call st http
        ("repos/" ++ (ps.owner ++ "/" ++ ps.repo) ++ "/commits/" ++ default_branch) =
        Except.ok api_callback ∧
      pyGetItem api_callback "commit" = Except.ok latest_commit ∧
      (pyGetItem api_callback "sha" >>= asStr) = Except.ok sha ∧
      ((pyGetItem latest_commit "committer" >>= fun c => pyGetItem c "date") >>= asStr) =
        Except.ok cdate ∧
      pyGet repo_info "description" = Except.ok descriptionJ ∧
      (pyGetItem repo_info "html_url" >>= asStr) = Except.ok homepage ∧
      pyOrLicense ps.license (github_license_lookup repo_info) = Except.ok license ∧
      parseOrValueError strptime_date_github cdate = Except.ok updated ∧
      p = { name := ps.name
            owner := ps.owner
            version := splitHead cdate "T"
            source := .urlSource ("https://github.com/" ++ (ps.owner ++ "/" ++ ps.repo) ++
              "/archive/" ++ sha ++ ".tar.gz")
            description := pyDescription descriptionJ
            homepage := homepage
            license := license
            source_line := ps.line
            updated := some updated
            checked := st.checked_default } := by
  unfold GitHubPlugin_init at h
  obtain ⟨repo_info, h1, h⟩ := bind_ok_inv h
  obtain ⟨default_branch, h2, h⟩ := bind_ok_inv h
  obtain ⟨api_callback, h3, h⟩ := bind_ok_inv h
  obtain ⟨latest_commit, h4, h⟩ := bind_ok_inv h
  obtain ⟨sha, h5, h⟩ := bind_ok_inv h
  obtain ⟨cdate, h6, h⟩ := bind_ok_inv h
  obtain ⟨descriptionJ, h7, h⟩ := bind_ok_inv h
  obtain ⟨homepage, h8, h⟩ := bind_ok_inv h
  obtain ⟨license, h9, h⟩ := bind_ok_inv h
  obtain ⟨updated, h10, h⟩ := bind_ok_inv h
  exact ⟨repo_info, default_branch, api_callback, latest_commit, sha, cdate,
    descriptionJ, homepage, license, updated,
    h1, h2, h3, h4, h5, h6, h7, h8, h9, h10, (Except.ok.inj h).symm⟩

/-- Full inversion of a successful GitLab resolution. -/
theorem GitlabPlugin_init_ok_inv {st : ModuleState} {http : Request → HttpResponse}
    {ps : PluginSpec} {p : VimPlugin}
    (h : GitlabPlugin_init st http ps = Except.ok p) :
    ∃ repo_info default_branch api_callback latest_commit sha committed_date
      descriptionJ homepage license created_at updated,
      gitlab_api_call http ("projects/" ++ urlquote (ps.owner ++ "/" ++ ps.repo)) =
        Except.ok repo_info ∧
      pyOrStr ps.branch (pyGetItem repo_info "default_branch" >>= asStr) = Except.ok default_branch ∧
      gitlab_api_call http ("projects/" ++ urlquote (ps.owner ++ "/" ++ ps.repo) ++
        "/repository/branches/" ++ default_branch) = Except.ok api_callback ∧
      pyGetItem api_callback "commit" = Except.ok latest_commit ∧
      (pyGetItem latest_commit "id" >>= asStr) = Except.ok sha ∧
      (pyGetItem latest_commit "committed_date" >>= asStr) = Except.ok committed_date ∧
      pyGet repo_info "description" = Except.ok descriptionJ ∧
      (pyGetItem repo_info "web_url" >>= asStr) = Except.ok homepage ∧
      pyOrLicense ps.license (gitlab_license_lookup repo_info) = Except.ok license ∧
      (pyGetItem latest_commit "created_at" >>= asStr) = Except.ok created_at ∧
      parseOrValueError strptime_date_gitlab created_at = Except.ok updated ∧
      p = { name := ps.name
            owner := ps.owner
            version := splitHead committed_date "T"
            source := .urlSource ("https://gitlab.com/api/v4/projects/" ++
              urlquote (ps.owner ++ "/" ++ ps.repo) ++ "/repository/archive.tar.gz?sha=" ++ sha)
            description := pyDescription descriptionJ
            homepage := homepage
            license := license
            source_line := ps.line
            updated := some updated
            checked := st.checked_default } := by
  unfold GitlabPlugin_init at h
  obtain ⟨repo_info, h1, h⟩ := bind_ok_inv h
  obtain ⟨default_branch, h2, h⟩ := bind_ok_inv h
  obtain ⟨api_callback, h3, h⟩ := bind_ok_inv h
  obtain ⟨latest_commit, h4, h⟩ := bind_ok_inv h
  obtain ⟨sha, h5, h⟩ := bind_ok_inv h
  obtain ⟨committed_date, h6, h⟩ := bind_ok_inv h
  obtain ⟨descriptionJ, h7, h⟩ := bind_ok_inv h
  obtain ⟨homepage, h8, h⟩ := bind_ok_inv h
  obtain ⟨license, h9, h⟩ := bind_ok_inv h
  obtain ⟨created_at, h10, h⟩ := bind_ok_inv h
  obtain ⟨updated, h11, h⟩ := bind_ok_inv h
  exact ⟨repo_info, default_branch, api_callback, latest_commit, sha, committed_date,
    descriptionJ, homepage, license, created_at, updated,
    h1, h2, h3, h4, h5, h6, h7, h8, h9, h10, h11, (Except.ok.inj h).symm⟩

/-- Full inversion of a successful SourceHut resolution: in particular
the record's `updated` attribute is unset and its license is the
override or `UNKNOWN`. -/
theorem SourceHutPlugin_init_ok_inv {st : ModuleState} {http : Request → HttpResponse}
    {ps : PluginSpec} {p : VimPlugin}
    (h : SourceHutPlugin_init st http ps = Except.ok p) :
    ∃ repo_info commits latest_commit sha timestamp descriptionJ,
      sourcehut_api_call st http ("~" ++ ps.owner ++ "/repos/" ++ ps.repo) =
        Except.ok repo_info ∧
      sourcehut_api_call st http (sourcehut_log_path ps) = Except.ok commits ∧
      (pyGetItem commits "results" >>= fun r => pyIndex r 0) = Except.ok latest_commit ∧
      (pyGetItem latest_commit "id" >>= asStr) = Except.ok sha ∧
      (pyGetItem latest_commit "timestamp" >>= asStr) = Except.ok timestamp ∧
      pyGet repo_info "description" = Except.ok descriptionJ ∧
      p = { name := ps.name
            owner := ps.owner
            version := splitHead timestamp "T"
            source := .gitSource ("https://git.sr.ht/~" ++ ps.owner ++ "/" ++ ps.repo) sha
            description := pyDescription descriptionJ
            homepage := "https://git.sr.ht/~" ++ ps.owner ++ "/" ++ ps.repo
            license :=
              (match ps.license with
               | some l => l
               | none => License.unknown)
            source_line := ps.line
            updated := none
            checked := st.checked_default } := by
  unfold SourceHutPlugin_init at h
  obtain ⟨repo_info, h1, h⟩ := bind_ok_inv h
  obtain ⟨commits, h2, h⟩ := bind_ok_inv h
  obtain ⟨latest_commit, h3, h⟩ := bind_ok_inv h
  obtain ⟨sha, h4, h⟩ := bind_ok_inv h
  obtain ⟨timestamp, h5, h⟩ := bind_ok_inv h
  obtain ⟨descriptionJ, h6, h⟩ := bind_ok_inv h
  exact ⟨repo_info, commits, latest_commit, sha, timestamp, descriptionJ,
    h1, h2, h3, h4, h5, h6, (Except.ok.inj h).symm⟩

/-! ## Request abbreviations used in theorem statements -/

/-- The first (repository-info) request of the GitHub adapter. -/
def github_repo_request (st : ModuleState) (ps : PluginSpec) : Request :=
  github_request st.github_default_token ("repos/" ++ (ps.owner ++ "/" ++ ps.repo))

/-- The second (commit) request of the GitHub adapter, for branch `b`. -/
def github_commits_request (st : ModuleState) (ps : PluginSpec) (b : String) : Request :=
  github_request st.github_default_token
    ("repos/" ++ (ps.owner ++ "/" ++ ps.repo) ++ "/commits/" ++ b)

/-- The first (project-info) request of the GitLab adapter. -/
def gitlab_project_request (ps : PluginSpec) : Request :=
  gitlab_request ("projects/" ++ urlquote (ps.owner ++ "/" ++ ps.repo))

/-- The second (branch) request of the GitLab adapter, for branch `b`. -/
def gitlab_branch_request (ps : PluginSpec) (b : String) : Request :=
  gitlab_request ("projects/" ++ urlquote (ps.owner ++ "/" ++ ps.repo) ++
    "/repository/branches/" ++ b)

/-- The first (repository-info) request of the SourceHut adapter. -/
def sourcehut_repo_request (st : ModuleState) (ps : PluginSpec) : Request :=
  sourcehut_request st.sourcehut_default_token ("~" ++ ps.owner ++ "/repos/" ++ ps.repo)

/-- The second (commit-log) request of the SourceHut adapter. -/
def sourcehut_log_request (st : ModuleState) (ps : PluginSpec) : Request :=
  sourcehut_request st.sourcehut_default_token (sourcehut_log_path ps)

/-! ## Concrete fixtures for witnesses and counterexamples -/

/-- A module state loaded with both tokens present, on 2024-05-01. -/
def fixSt : ModuleState := loadModule ⟨some "ghTok", some "shTok"⟩ ⟨2024, 5, 1⟩

/-- A GitHub oracle: repository `alice/plug`, default branch `main`,
MIT license, latest commit `deadbeef` on 2024-04-02. -/
def ghHttp : Request → HttpResponse := fun r =>
  if r.url = "https://api.github.com/repos/alice/plug" then
    { status_code := 200, text := "repo-body",
      json := .obj [("default_branch", .str "main"),
                    ("html_url", .str "https://github.com/alice/plug"),
                    ("description", .str "A plugin"),
                    ("license", .obj [("spdx_id", .str "MIT")])] }
  else if r.url = "https://api.github.com/repos/alice/plug/commits/main" then
    { status_code := 200, text := "commit-body",
      json := .obj [("sha", .str "deadbeef"),
                    ("commit", .obj [("committer", .obj [("date", .str "2024-04-02T08:30:00Z")])])] }
  else { status_code := 404, text := "not found", json := .null }

/-- A GitHub reference without branch or license override. -/
def psGhPlain : PluginSpec :=
  { name := "plug", owner := "alice", repo := "plug", branch := none,
    license := none, line := "alice/plug", repository_host := .github }

/-- The same reference with an explicit GPL-3.0-only license override. -/
def psGhOver : PluginSpec := { psGhPlain with license := some .gpl3Only }

/-- Resolution of `psGhPlain` against `ghHttp`. -/
def ghPlugPlain : VimPlugin :=
  { name := "plug", owner := "alice", version := "2024-04-02",
    source := .urlSource "https://github.com/alice/plug/archive/deadbeef.tar.gz",
    description := "A plugin", homepage := "https://github.com/alice/plug",
    license := .mit, source_line := "alice/plug",
    updated := some ⟨2024, 4, 2⟩, checked := ⟨2024, 5, 1⟩ }

/-- Resolution of `psGhOver` against `ghHttp`: the override wins. -/
def ghPlugOver : VimPlugin := { ghPlugPlain with license := .gpl3Only }

/-- A GitLab oracle for project `alice/plug`: note `committed_date`
(2024-04-02) and `created_at` (2024-04-01) deliberately name different
days. -/
def glHttp : Request → HttpResponse := fun r =>
  if r.url = "https://gitlab.com/api/v4/projects/alice%2Fplug" then
    { status_code := 200, text := "gl-repo-body",
      json := .obj [("default_branch", .str "main"),
                    ("web_url", .str "https://gitlab.com/alice/plug"),
                    ("description", .str "A plugin"),
                    ("license", .obj [("key", .str "MIT")])] }
  else if r.url = "https://gitlab.com/api/v4/projects/alice%2Fplug/repository/branches/main" then
    { status_code := 200, text := "gl-branch-body",
      json := .obj [("commit", .obj
        [("id", .str "cafe42"),
         ("committed_date", .str "2024-04-02T08:30:00.123456+00:00"),
         ("created_at", .str "2024-04-01T23:59:59.000001+02:00")])] }
  else { status_code := 404, text := "not found", json := .null }

/-- A GitLab reference without branch or license override. -/
def psGl : PluginSpec :=
  { name := "plug", owner := "alice", repo := "plug", branch := none,
    license := none, line := "gitlab:alice/plug", repository_host := .gitlab }

/-- Resolution of `psGl` against `glHttp`: `version` comes from
`committed_date`, `updated` from `created_at`. -/
def glPlug : VimPlugin :=
  { name := "plug", owner := "alice", version := "2024-04-02",
    source := .urlSource "https://gitlab.com/api/v4/projects/alice%2Fplug/repository/archive.tar.gz?sha=cafe42",
    description := "A plugin", homepage := "https://gitlab.com/alice/plug",
    license := .mit, source_line := "gitlab:alice/plug",
    updated := some ⟨2024, 4, 1⟩, checked := ⟨2024, 5, 1⟩ }

/-- A SourceHut oracle: repository `~alice/plug` with a two-entry
commit log, newest first. -/
def shHttp : Request → HttpResponse := fun r =>
  if r.url = "https://git.sr.ht/api/~alice/repos/plug" then
    { status_code := 200, text := "sh-repo-body",
      json := .obj [("description", .str "A plugin")] }
  else if r.url = "https://git.sr.ht/api/~alice/repos/plug/log" then
    { status_code := 200, text := "sh-log-body",
      json := .obj [("results", .arr
        [.obj [("id", .str "shsha1"), ("timestamp", .str "2024-03-31T12:00:00Z")],
         .obj [("id", .str "older"), ("timestamp", .str "2024-01-01T00:00:00Z")]])] }
  else { status_code := 404, text := "not found", json := .null }

/-- The same SourceHut oracle with the log truncated to its head entry. -/
def shHttpHeadOnly : Request → HttpResponse := fun r =>
  if r.url = "https://git.sr.ht/api/~alice/repos/plug/log" then
    { status_code := 200, text := "sh-log-body-short",
      json := .obj [("results", .arr
        [.obj [("id", .str "shsha1"), ("timestamp", .str "2024-03-31T12:00:00Z")]])] }
  else shHttp r

/-- The same SourceHut oracle with an empty commit log. -/
def shHttpEmptyLog : Request → HttpResponse := fun r =>
  if r.url = "https://git.sr.ht/api/~alice/repos/plug/log" then
    { status_code := 200, text := "sh-log-empty", json := .obj [("results", .arr [])] }
  else shHttp r

/-- A SourceHut reference without branch or license override. -/
def psSh : PluginSpec :=
  { name := "plug", owner := "alice", repo := "plug", branch := none,
    license := none, line := "sr.ht:~alice/plug", repository_host := .sourcehut }

/-- The same reference with an explicit MIT license override. -/
def psShOver : PluginSpec := { psSh with license := some .mit }

/-- Resolution of `psSh` against `shHttp`: log entry 0 supplies the
revision; `updated` is never assigned; the license degrades to
`UNKNOWN`. -/
def shPlug : VimPlugin :=
  { name := "plug", owner := "alice", version := "2024-03-31",
    source := .gitSource "https://git.sr.ht/~alice/plug" "shsha1",
    description := "A plugin", homepage := "https://git.sr.ht/~alice/plug",
    license := .unknown, source_line := "sr.ht:~alice/plug",
    updated := none, checked := ⟨2024, 5, 1⟩ }

/-- An oracle whose every response is a 404 with body `nope`. -/
def http404 : Request → HttpResponse := fun _ =>
  { status_code := 404, text := "nope", json := .str "nope" }

/-- An oracle whose every response is a 500 with the same body `nope`. -/
def http500 : Request → HttpResponse := fun _ =>
  { status_code := 500, text := "nope", json := .str "nope" }

/-! ## Claim theorems -/

/-- The oracle of the spec's GitHub scenario: `repos/neovim/neovim`
reports default branch `master`; the commit call on `master` returns
sha `abc123` with committer date `2024-03-01T10:00:00Z`. -/
def c5Http : Request → HttpResponse := fun r =>
  if r.url = "https://api.github.com/repos/neovim/neovim" then
    { status_code := 200, text := "ri",
      json := .obj [("default_branch", .str "master"),
                    ("html_url", .str "https://github.com/neovim/neovim")] }
  else if r.url = "https://api.github.com/repos/neovim/neovim/commits/master" then
    { status_code := 200, text := "cb",
      json := .obj [("sha", .str "abc123"),
                    ("commit", .obj [("committer", .obj [("date", .str "2024-03-01T10:00:00Z")])])] }
  else { status_code := 404, text := "nf", json := .null }

/-- The spec scenario's reference: `neovim/neovim`, no branch. -/
def c5Ps : PluginSpec :=
  { name := "neovim", owner := "neovim", repo := "neovim", branch := none,
    license := none, line := "neovim/neovim", repository_host := .github }

/-- The metadata record the scenario produces. -/
def c5Plug : VimPlugin :=
  { name := "neovim", owner := "neovim", version := "2024-03-01",
    source := .urlSource "https://github.com/neovim/neovim/archive/abc123.tar.gz",
    description := "No description", homepage := "https://github.com/neovim/neovim",
    license := .unknown, source_line := "neovim/neovim",
    updated := some ⟨2024, 3, 1⟩, checked := ⟨2024, 5, 1⟩ }

/-- C5: a GitHub reference with no explicit branch, repository-info
reporting default branch `master`, and the commit call on `master`
returning sha `abc123` with committer date `2024-03-01T10:00:00Z`,
resolves to version `2024-03-01` (the date portion of the ISO-8601
timestamp) and an archive source
`https://github.com/neovim/neovim/archive/abc123.tar.gz`. -/
theorem github_scenario_version_and_source :
    GitHubPlugin_init fixSt c5Http c5Ps = Except.ok c5Plug ∧
    c5Plug.version = "2024-03-01" ∧
    c5Plug.source =
      Source.urlSource "https://github.com/neovim/neovim/archive/abc123.tar.gz" :=
  ⟨rfl, rfl, rfl⟩

/-- C7: the facade dispatches exactly to the adapter matching the host
discriminator, and on any other discriminator fails with the
unsupported-host error without consulting the HTTP oracle at all
(the result is the same for every oracle: it performs no I/O itself). -/
theorem plugin_from_spec_dispatch (st : ModuleState)
    (http http' : Request → HttpResponse) (ps : PluginSpec) (s : String) :
    (ps.repository_host = .github →
      plugin_from_spec st http ps = GitHubPlugin_init st http ps) ∧
    (ps.repository_host = .gitlab →
      plugin_from_spec st http ps = GitlabPlugin_init st http ps) ∧
    (ps.repository_host = .sourcehut →
      plugin_from_spec st http ps = SourceHutPlugin_init st http ps) ∧
    (ps.repository_host = .other s →
      plugin_from_spec st http ps =
        Except.error (.notImplementedError ("Unsupported source: " ++ s)) ∧
      plugin_from_spec st http ps = plugin_from_spec st http' ps) := by
  refine ⟨fun h => ?_, fun h => ?_, fun h => ?_, fun h => ?_⟩ <;>
    simp [plugin_from_spec, h, RepositoryHost.render]

/-- Witness for C7: concrete dispatch to GitHub and a concrete
unsupported discriminator. -/
theorem plugin_from_spec_dispatch_witness :
    plugin_from_spec fixSt ghHttp psGhPlain = GitHubPlugin_init fixSt ghHttp psGhPlain ∧
    plugin_from_spec fixSt ghHttp
        { psGhPlain with repository_host := .other "RepositoryHost.CODEBERG" } =
      Except.error (.notImplementedError "Unsupported source: RepositoryHost.CODEBERG") :=
  ⟨(plugin_from_spec_dispatch fixSt ghHttp ghHttp psGhPlain "").1 rfl,
   ((plugin_from_spec_dispatch fixSt ghHttp ghHttp
      { psGhPlain with repository_host := .other "RepositoryHost.CODEBERG" }
      "RepositoryHost.CODEBERG").2.2.2 rfl).1⟩

/-- C3: an explicit license override determines the resolved license on
all three hosts, whatever the host responds; a SourceHut resolution
with an override (of a real license) does not yield `UNKNOWN`, and a
SourceHut resolution without an override always yields `UNKNOWN`. -/
theorem license_override_wins (st : ModuleState) (http : Request → HttpResponse)
    (ps : PluginSpec) (l : License) (p : VimPlugin) :
    (ps.license = some l → GitHubPlugin_init st http ps = Except.ok p → p.license = l) ∧
    (ps.license = some l → GitlabPlugin_init st http ps = Except.ok p → p.license = l) ∧
    (ps.license = some l → SourceHutPlugin_init st http ps = Except.ok p → p.license = l) ∧
    (ps.license = some l → l ≠ License.unknown →
      SourceHutPlugin_init st http ps = Except.ok p → p.license ≠ License.unknown) ∧
    (ps.license = none → SourceHutPlugin_init st http ps = Except.ok p →
      p.license = License.unknown) := by
  have hg : ps.license = some l → GitHubPlugin_init st http ps = Except.ok p →
      p.license = l := by
    intro hl h
    obtain ⟨ri, db, cb, lc, sha, cdate, dj, hp, lic, upd,
      -, -, -, -, -, -, -, -, h9, -, hrec⟩ := GitHubPlugin_init_ok_inv h
    subst hrec
    rw [hl] at h9
    simp only [pyOrLicense, pure, Except.pure, Except.ok.injEq] at h9
    exact h9.symm
  have hgl : ps.license = some l → GitlabPlugin_init st http ps = Except.ok p →
      p.license = l := by
    intro hl h
    obtain ⟨ri, db, cb, lc, sha, cd, dj, hp, lic, ca, upd,
      -, -, -, -, -, -, -, -, h9, -, -, hrec⟩ := GitlabPlugin_init_ok_inv h
    subst hrec
    rw [hl] at h9
    simp only [pyOrLicense, pure, Except.pure, Except.ok.injEq] at h9
    exact h9.symm
  have hs : ps.license = some l → SourceHutPlugin_init st http ps = Except.ok p →
      p.license = l := by
    intro hl h
    obtain ⟨ri, cm, lc, sha, ts, dj, -, -, -, -, -, -, hrec⟩ :=
      SourceHutPlugin_init_ok_inv h
    subst hrec
    simp only [hl]
  have hsn : ps.license = none → SourceHutPlugin_init st http ps = Except.ok p →
      p.license = License.unknown := by
    intro hl h
    obtain ⟨ri, cm, lc, sha, ts, dj, -, -, -, -, -, -, hrec⟩ :=
      SourceHutPlugin_init_ok_inv h
    subst hrec
    simp only [hl]
  exact ⟨hg, hgl, hs, fun hl hne h => by rw [hs hl h]; exact hne, hsn⟩

/-- Witness for C3: a concrete GitHub resolution with a GPL-3.0-only
override resolves to that override although the host reports MIT, and a
concrete SourceHut resolution without an override yields `UNKNOWN`. -/
theorem license_override_wins_witness :
    ghPlugOver.license = License.gpl3Only ∧ shPlug.license = License.unknown :=
  ⟨(license_override_wins fixSt ghHttp psGhOver .gpl3Only ghPlugOver).1 rfl rfl,
   (license_override_wins fixSt shHttp psSh .mit shPlug).2.2.2.2 rfl rfl⟩

/-- C9: the `checked` date every adapter stores is the class-level
default computed once at module load (`datetime.now().date()` in the
class body); every instance resolved in the same process carries that
same load-time date, whatever happens at resolution time. -/
theorem checked_is_load_time_class_default (env : Env) (now : Date)
    (http : Request → HttpResponse) (ps : PluginSpec) (p : VimPlugin) :
    (loadModule env now).checked_default = now ∧
    (GitHubPlugin_init (loadModule env now) http ps = Except.ok p → p.checked = now) ∧
    (GitlabPlugin_init (loadModule env now) http ps = Except.ok p → p.checked = now) ∧
    (SourceHutPlugin_init (loadModule env now) http ps = Except.ok p → p.checked = now) := by
  refine ⟨rfl, fun h => ?_, fun h => ?_, fun h => ?_⟩
  · obtain ⟨ri, db, cb, lc, sha, cdate, dj, hp, lic, upd,
      -, -, -, -, -, -, -, -, -, -, hrec⟩ := GitHubPlugin_init_ok_inv h
    subst hrec
    rfl
  · obtain ⟨ri, db, cb, lc, sha, cd, dj, hp, lic, ca, upd,
      -, -, -, -, -, -, -, -, -, -, -, hrec⟩ := GitlabPlugin_init_ok_inv h
    subst hrec
    rfl
  · obtain ⟨ri, cm, lc, sha, ts, dj, -, -, -, -, -, -, hrec⟩ :=
      SourceHutPlugin_init_ok_inv h
    subst hrec
    rfl

/-- Witness for C9: the concrete GitHub resolution under a module
loaded on 2024-05-01 reports exactly that date as `checked`. -/
theorem checked_is_load_time_class_default_witness :
    ghPlugPlain.checked = Date.mk 2024 5 1 :=
  (checked_is_load_time_class_default ⟨some "ghTok", some "shTok"⟩ ⟨2024, 5, 1⟩
    ghHttp psGhPlain ghPlugPlain).2.1 rfl

/-- C10: a SourceHut-resolved plugin never has its `updated` attribute
assigned, so `to_markdown` on it fails with an attribute-access error,
while GitHub- and GitLab-resolved plugins carry an `updated` date and
render a report row. -/
theorem updated_assignment_per_adapter (st : ModuleState)
    (http : Request → HttpResponse) (ps : PluginSpec) (p : VimPlugin) :
    (SourceHutPlugin_init st http ps = Except.ok p →
      p.updated = none ∧
      p.to_markdown = Except.error (.attributeError "updated")) ∧
    (GitHubPlugin_init st http ps = Except.ok p →
      ∃ d s, p.updated = some d ∧ p.to_markdown = Except.ok s) ∧
    (GitlabPlugin_init st http ps = Except.ok p →
      ∃ d s, p.updated = some d ∧ p.to_markdown = Except.ok s) := by
  refine ⟨fun h => ?_, fun h => ?_, fun h => ?_⟩
  · obtain ⟨ri, cm, lc, sha, ts, dj, -, -, -, -, -, -, hrec⟩ :=
      SourceHutPlugin_init_ok_inv h
    subst hrec
    exact ⟨rfl, rfl⟩
  · obtain ⟨ri, db, cb, lc, sha, cdate, dj, hp, lic, upd,
      -, -, -, -, -, -, -, -, -, -, hrec⟩ := GitHubPlugin_init_ok_inv h
    subst hrec
    exact ⟨upd, _, rfl, rfl⟩
  · obtain ⟨ri, db, cb, lc, sha, cd, dj, hp, lic, ca, upd,
      -, -, -, -, -, -, -, -, -, -, -, hrec⟩ := GitlabPlugin_init_ok_inv h
    subst hrec
    exact ⟨upd, _, rfl, rfl⟩

/-- Witness for C10: the concrete SourceHut resolution has no `updated`
and its markdown rendering fails; the concrete GitHub resolution has
one and renders. -/
theorem updated_assignment_per_adapter_witness :
    (shPlug.updated = none ∧
      shPlug.to_markdown = Except.error (.attributeError "updated")) ∧
    (∃ d s, ghPlugPlain.updated = some d ∧ ghPlugPlain.to_markdown = Except.ok s) :=
  ⟨(updated_assignment_per_adapter fixSt shHttp psSh shPlug).1 rfl,
   (updated_assignment_per_adapter fixSt ghHttp psGhPlain ghPlugPlain).2.1 rfl⟩

/-- `pure` on this monad is `Except.ok`. -/
theorem ex_pure {α : Type} (a : α) : (pure a : Except ResolveError α) = Except.ok a := rfl

/-- A GitHub API call against a 200 response returns its decoded body. -/
theorem github_api_call_200 (st : ModuleState) (http : Request → HttpResponse)
    (path : String)
    (h : (http (github_request st.github_default_token path)).status_code = 200) :
    github_api_call st http path =
      Except.ok (http (github_request st.github_default_token path)).json := by
  simp [github_api_call, h, ex_pure]

/-- A GitHub API call against a non-200 response raises the
`RuntimeError` carrying the response text. -/
theorem github_api_call_fail (st : ModuleState) (http : Request → HttpResponse)
    (path : String)
    (h : (http (github_request st.github_default_token path)).status_code ≠ 200) :
    github_api_call st http path =
      Except.error (.hostApiError ("GitHub API call failed: " ++
        (http (github_request st.github_default_token path)).text)) := by
  simp [github_api_call, h]

/-- Two oracles agreeing on a GitHub request give the same call result. -/
theorem github_api_call_congr {st : ModuleState} {http http' : Request → HttpResponse}
    {path : String}
    (h : http (github_request st.github_default_token path) =
      http' (github_request st.github_default_token path)) :
    github_api_call st http path = github_api_call st http' path := by
  unfold github_api_call
  rw [h]

/-- A GitLab API call against a 200 response returns its decoded body. -/
theorem gitlab_api_call_200 (http : Request → HttpResponse) (path : String)
    (h : (http (gitlab_request path)).status_code = 200) :
    gitlab_api_call http path = Except.ok (http (gitlab_request path)).json := by
  simp [gitlab_api_call, h, ex_pure]

/-- A GitLab API call against a non-200 response raises the
`RuntimeError` carrying the response text. -/
theorem gitlab_api_call_fail (http : Request → HttpResponse) (path : String)
    (h : (http (gitlab_request path)).status_code ≠ 200) :
    gitlab_api_call http path =
      Except.error (.hostApiError ("Gitlab API call failed: " ++
        (http (gitlab_request path)).text)) := by
  simp [gitlab_api_call, h]

/-- Two oracles agreeing on a GitLab request give the same call result. -/
theorem gitlab_api_call_congr {http http' : Request → HttpResponse} {path : String}
    (h : http (gitlab_request path) = http' (gitlab_request path)) :
    gitlab_api_call http path = gitlab_api_call http' path := by
  unfold gitlab_api_call
  rw [h]

/-- A SourceHut API call against a 200 response returns its decoded body. -/
theorem sourcehut_api_call_200 (st : ModuleState) (http : Request → HttpResponse)
    (path : String)
    (h : (http (sourcehut_request st.sourcehut_default_token path)).status_code = 200) :
    sourcehut_api_call st http path =
      Except.ok (http (sourcehut_request st.sourcehut_default_token path)).json := by
  simp [sourcehut_api_call, h, ex_pure]

/-- A SourceHut API call against a non-200 response raises the
`RuntimeError` carrying the rendered decoded body. -/
theorem sourcehut_api_call_fail (st : ModuleState) (http : Request → HttpResponse)
    (path : String)
    (h : (http (sourcehut_request st.sourcehut_default_token path)).status_code ≠ 200) :
    sourcehut_api_call st http path =
      Except.error (.hostApiError ("SourceHut API call failed: " ++
        (http (sourcehut_request st.sourcehut_default_token path)).json.render)) := by
  simp [sourcehut_api_call, h]

/-- Two oracles agreeing on a SourceHut request give the same call result. -/
theorem sourcehut_api_call_congr {st : ModuleState} {http http' : Request → HttpResponse}
    {path : String}
    (h : http (sourcehut_request st.sourcehut_default_token path) =
      http' (sourcehut_request st.sourcehut_default_token path)) :
    sourcehut_api_call st http path = sourcehut_api_call st http' path := by
  unfold sourcehut_api_call
  rw [h]

/-- C6: the SourceHut adapter takes the latest revision from log entry
index 0 whenever the log is non-empty — the result depends only on the
head entry, for any tails — and an empty log list makes the resolution
fail (with `IndexError`) instead of producing a metadata record. -/
theorem sourcehut_log_head_and_empty_fails (st : ModuleState) (ps : PluginSpec)
    (http http' : Request → HttpResponse) (c : Json) (t t' : List Json) :
    (http (sourcehut_repo_request st ps) = http' (sourcehut_repo_request st ps) →
      (http (sourcehut_log_request st ps)).status_code = 200 →
      (http' (sourcehut_log_request st ps)).status_code = 200 →
      pyGetItem (http (sourcehut_log_request st ps)).json "results" =
        Except.ok (.arr (c :: t)) →
      pyGetItem (http' (sourcehut_log_request st ps)).json "results" =
        Except.ok (.arr (c :: t')) →
      SourceHutPlugin_init st http ps = SourceHutPlugin_init st http' ps) ∧
    ((http (sourcehut_repo_request st ps)).status_code = 200 →
      (http (sourcehut_log_request st ps)).status_code = 200 →
      pyGetItem (http (sourcehut_log_request st ps)).json "results" =
        Except.ok (.arr []) →
      SourceHutPlugin_init st http ps = Except.error .indexError) := by
  constructor
  · intro h1 h2 h3 h4 h5
    simp only [sourcehut_repo_request, sourcehut_log_request] at h1 h2 h3 h4 h5
    unfold SourceHutPlugin_init
    rw [sourcehut_api_call_congr h1]
    rw [sourcehut_api_call_200 st http _ h2, sourcehut_api_call_200 st http' _ h3]
    simp only [ex_bind_ok, h4, h5, pyIndex, List.get?]
  · intro h0 h2 h4
    simp only [sourcehut_repo_request, sourcehut_log_request] at h0 h2 h4
    unfold SourceHutPlugin_init
    rw [sourcehut_api_call_200 st http _ h0]
    rw [ex_bind_ok]
    rw [sourcehut_api_call_200 st http _ h2]
    simp only [ex_bind_ok, h4, pyIndex, List.get?, ex_bind_err]

/-- Witness for C6: the concrete two-entry and one-entry logs resolve
identically, and the concrete empty log fails with `IndexError`. -/
theorem sourcehut_log_head_and_empty_fails_witness :
    SourceHutPlugin_init fixSt shHttp psSh = SourceHutPlugin_init fixSt shHttpHeadOnly psSh ∧
    SourceHutPlugin_init fixSt shHttpEmptyLog psSh = Except.error .indexError :=
  ⟨(sourcehut_log_head_and_empty_fails fixSt psSh shHttp shHttpHeadOnly
      (.obj [("id", .str "shsha1"), ("timestamp", .str "2024-03-31T12:00:00Z")])
      [.obj [("id", .str "older"), ("timestamp", .str "2024-01-01T00:00:00Z")]]
      []).1 rfl rfl rfl rfl rfl,
   (sourcehut_log_head_and_empty_fails fixSt psSh shHttpEmptyLog shHttpEmptyLog
      .null [] []).2 rfl rfl rfl⟩

/-- C4: for GitHub and GitLab, when the reference carries no branch the
commit lookup is made on the repository-info call's `default_branch`,
and when it carries a (non-empty) explicit branch the lookup is made on
that branch verbatim: the resolution result depends on the oracle only
through the repository-info request and the commit request for exactly
that branch. -/
theorem explicit_or_default_branch_used (st : ModuleState) (ps : PluginSpec)
    (http http' : Request → HttpResponse) (b db : String) :
    (ps.branch = some b → b ≠ "" →
      http (github_repo_request st ps) = http' (github_repo_request st ps) →
      http (github_commits_request st ps b) = http' (github_commits_request st ps b) →
      GitHubPlugin_init st http ps = GitHubPlugin_init st http' ps) ∧
    (ps.branch = none →
      http (github_repo_request st ps) = http' (github_repo_request st ps) →
      (http (github_repo_request st ps)).status_code = 200 →
      (pyGetItem (http (github_repo_request st ps)).json "default_branch" >>= asStr) =
        Except.ok db →
      http (github_commits_request st ps db) = http' (github_commits_request st ps db) →
      GitHubPlugin_init st http ps = GitHubPlugin_init st http' ps) ∧
    (ps.branch = some b → b ≠ "" →
      http (gitlab_project_request ps) = http' (gitlab_project_request ps) →
      http (gitlab_branch_request ps b) = http' (gitlab_branch_request ps b) →
      GitlabPlugin_init st http ps = GitlabPlugin_init st http' ps) ∧
    (ps.branch = none →
      http (gitlab_project_request ps) = http' (gitlab_project_request ps) →
      (http (gitlab_project_request ps)).status_code = 200 →
      (pyGetItem (http (gitlab_project_request ps)).json "default_branch" >>= asStr) =
        Except.ok db →
      http (gitlab_branch_request ps db) = http' (gitlab_branch_request ps db) →
      GitlabPlugin_init st http ps = GitlabPlugin_init st http' ps) := by
  refine ⟨fun hb hne h1 h2 => ?_, fun hb h1 h200 hdb h2 => ?_,
    fun hb hne h1 h2 => ?_, fun hb h1 h200 hdb h2 => ?_⟩
  · simp only [github_repo_request, github_commits_request] at h1 h2
    simp only [GitHubPlugin_init]
    rw [github_api_call_congr h1]
    simp only [hb, pyOrStr, if_neg hne, ex_pure, ex_bind_ok]
    simp only [github_api_call_congr h2]
  · simp only [github_repo_request, github_commits_request] at h1 h200 hdb h2
    have h200' : (http' (github_request st.github_default_token
        ("repos/" ++ (ps.owner ++ "/" ++ ps.repo)))).status_code = 200 := by
      rw [← h1]; exact h200
    rw [h1] at hdb
    simp only [GitHubPlugin_init]
    rw [github_api_call_congr h1]
    rw [github_api_call_200 st http' _ h200']
    simp only [ex_bind_ok, hb, pyOrStr, hdb]
    simp only [github_api_call_congr h2]
  · simp only [gitlab_project_request, gitlab_branch_request] at h1 h2
    simp only [GitlabPlugin_init]
    rw [gitlab_api_call_congr h1]
    simp only [hb, pyOrStr, if_neg hne, ex_pure, ex_bind_ok]
    simp only [gitlab_api_call_congr h2]
  · simp only [gitlab_project_request, gitlab_branch_request] at h1 h200 hdb h2
    have h200' : (http' (gitlab_request
        ("projects/" ++ urlquote (ps.owner ++ "/" ++ ps.repo)))).status_code = 200 := by
      rw [← h1]; exact h200
    rw [h1] at hdb
    simp only [GitlabPlugin_init]
    rw [gitlab_api_call_congr h1]
    rw [gitlab_api_call_200 http' _ h200']
    simp only [ex_bind_ok, hb, pyOrStr, hdb]
    simp only [gitlab_api_call_congr h2]

/-- The GitHub reference with an explicit branch `dev`. -/
def psGhBranch : PluginSpec := { psGhPlain with branch := some "dev" }

/-- `ghHttp` extended with a commit response for branch `dev` (whose
content differs from the default branch's). -/
def ghHttpB : Request → HttpResponse := fun r =>
  if r.url = "https://api.github.com/repos/alice/plug/commits/dev" then
    { status_code := 200, text := "commit-dev",
      json := .obj [("sha", .str "devsha"),
                    ("commit", .obj [("committer", .obj [("date", .str "2024-04-03T00:00:00Z")])])] }
  else ghHttp r

/-- `ghHttpB` perturbed on an unrelated URL only. -/
def ghHttpB2 : Request → HttpResponse := fun r =>
  if r.url = "https://api.github.com/unrelated" then
    { status_code := 500, text := "changed", json := .null }
  else ghHttpB r

/-- `ghHttp` perturbed on an unrelated URL only. -/
def ghHttpU : Request → HttpResponse := fun r =>
  if r.url = "https://api.github.com/unrelated" then
    { status_code := 500, text := "changed", json := .null }
  else ghHttp r

/-- Witness for C4: with the explicit branch `dev` the resolution reads
only the repo request and the `commits/dev` request (perturbing any
other response changes nothing), and with no branch it reads the
`commits/main` request for the host-reported default `main`. -/
theorem explicit_or_default_branch_used_witness :
    GitHubPlugin_init fixSt ghHttpB psGhBranch = GitHubPlugin_init fixSt ghHttpB2 psGhBranch ∧
    GitHubPlugin_init fixSt ghHttp psGhPlain = GitHubPlugin_init fixSt ghHttpU psGhPlain :=
  ⟨(explicit_or_default_branch_used fixSt psGhBranch ghHttpB ghHttpB2 "dev" "main").1
      rfl (by decide) rfl rfl,
   (explicit_or_default_branch_used fixSt psGhPlain ghHttp ghHttpU "dev" "main").2.1
      rfl rfl rfl rfl rfl⟩

/-- Modelled from the spec: the spec asserts each adapter reads the
bearer token from its environment variable at call time.  This
definition follows the spec's words — the request a GitHub call would
carry if the token were taken from the environment as it stands at the
moment of the call — for comparison against the source's behaviour
(`github_api_call`, whose token was fixed by default-argument
evaluation at module load). -/
def github_request_per_spec (callEnv : Env) (path : String) : Request :=
  github_request callEnv.github_token path

/-- C1 counterexample: load the module with `GITHUB_TOKEN=tokenA`, then
change the variable to `tokenB` before the call.  The request the code
sends still carries `token tokenA` — the value at module-load time —
not the call-time value the claim requires. -/
theorem github_token_not_read_at_call_time :
    (github_request (loadModule ⟨some "tokenA", none⟩ ⟨2024, 1, 1⟩).github_default_token
        "repos/o/r").headers =
      [("Content-Type", "application/json"), ("Authorization", "token tokenA")] ∧
    (github_request_per_spec ⟨some "tokenB", none⟩ "repos/o/r").headers =
      [("Content-Type", "application/json"), ("Authorization", "token tokenB")] ∧
    github_request (loadModule ⟨some "tokenA", none⟩ ⟨2024, 1, 1⟩).github_default_token
        "repos/o/r" ≠
      github_request_per_spec ⟨some "tokenB", none⟩ "repos/o/r" :=
  ⟨rfl, rfl, by decide⟩

/-- C1 amended: each adapter's token is read from its host-specific
environment variable once, at module load (default-argument evaluation
time), and that load-time value — not the call-time environment — is
attached to every call; a missing variable still yields a request
(without `Authorization`) and logs its warning exactly once per process
per host, at load time. -/
theorem tokens_read_once_at_module_load (env : Env) (now : Date) (path : String) :
    (loadModule env now).github_default_token = env.github_token ∧
    (loadModule env now).sourcehut_default_token = env.sourcehut_token ∧
    (loadModule env now).warnings =
      (match env.github_token with
       | none => ["GITHUB_TOKEN environment variable not set"]
       | some _ => []) ++
      (match env.sourcehut_token with
       | none => ["SOURCEHUT_TOKEN environment variable not set"]
       | some _ => []) ∧
    ((loadModule env now).warnings.count "GITHUB_TOKEN environment variable not set" =
      if env.github_token = none then 1 else 0) ∧
    ((loadModule env now).warnings.count "SOURCEHUT_TOKEN environment variable not set" =
      if env.sourcehut_token = none then 1 else 0) ∧
    (github_request (loadModule env now).github_default_token path).headers =
      [("Content-Type", "application/json")] ++
        (match env.github_token with
         | some t => [("Authorization", "token " ++ t)]
         | none => []) ∧
    (sourcehut_request (loadModule env now).sourcehut_default_token path).headers =
      [("Content-Type", "application/json")] ++
        (match env.sourcehut_token with
         | some t => [("Authorization", "token " ++ t)]
         | none => []) := by
  obtain ⟨g, s⟩ := env
  cases g <;> cases s <;>
    exact ⟨rfl, rfl, rfl, rfl, rfl, rfl, rfl⟩

/-- C2 counterexample: a 404 response and a 500 response with the same
body make the GitHub adapter raise the *identical* error — the raised
`RuntimeError` interpolates only the response text, so it cannot
capture the HTTP status the claim says it captures. -/
theorem host_api_error_drops_status :
    GitHubPlugin_init fixSt http404 psGhPlain =
      Except.error (.hostApiError "GitHub API call failed: nope") ∧
    GitHubPlugin_init fixSt http500 psGhPlain =
      Except.error (.hostApiError "GitHub API call failed: nope") ∧
    GitHubPlugin_init fixSt http404 psGhPlain = GitHubPlugin_init fixSt http500 psGhPlain ∧
    (http404 (github_repo_request fixSt psGhPlain)).status_code ≠
      (http500 (github_repo_request fixSt psGhPlain)).status_code :=
  ⟨rfl, rfl, rfl, by decide⟩

/-- C2 amended: on every adapter, any required call answered with a
non-200 status makes the resolution fail — no metadata record is
produced — with an error that captures the response body (the raw text
for GitHub and GitLab, the rendered decoded body for SourceHut), though
not the numeric HTTP status. -/
theorem non_success_status_fails_resolution (st : ModuleState)
    (http : Request → HttpResponse) (ps : PluginSpec) (db : String) :
    ((http (github_repo_request st ps)).status_code ≠ 200 →
      GitHubPlugin_init st http ps = Except.error (.hostApiError
        ("GitHub API call failed: " ++ (http (github_repo_request st ps)).text))) ∧
    ((http (github_repo_request st ps)).status_code = 200 →
      pyOrStr ps.branch
        (pyGetItem (http (github_repo_request st ps)).json "default_branch" >>= asStr) =
        Except.ok db →
      (http (github_commits_request st ps db)).status_code ≠ 200 →
      GitHubPlugin_init st http ps = Except.error (.hostApiError
        ("GitHub API call failed: " ++ (http (github_commits_request st ps db)).text))) ∧
    ((http (gitlab_project_request ps)).status_code ≠ 200 →
      GitlabPlugin_init st http ps = Except.error (.hostApiError
        ("Gitlab API call failed: " ++ (http (gitlab_project_request ps)).text))) ∧
    ((http (gitlab_project_request ps)).status_code = 200 →
      pyOrStr ps.branch
        (pyGetItem (http (gitlab_project_request ps)).json "default_branch" >>= asStr) =
        Except.ok db →
      (http (gitlab_branch_request ps db)).status_code ≠ 200 →
      GitlabPlugin_init st http ps = Except.error (.hostApiError
        ("Gitlab API call failed: " ++ (http (gitlab_branch_request ps db)).text))) ∧
    ((http (sourcehut_repo_request st ps)).status_code ≠ 200 →
      SourceHutPlugin_init st http ps = Except.error (.hostApiError
        ("SourceHut API call failed: " ++ (http (sourcehut_repo_request st ps)).json.render))) ∧
    ((http (sourcehut_repo_request st ps)).status_code = 200 →
      (http (sourcehut_log_request st ps)).status_code ≠ 200 →
      SourceHutPlugin_init st http ps = Except.error (.hostApiError
        ("SourceHut API call failed: " ++
          (http (sourcehut_log_request st ps)).json.render))) := by
  refine ⟨fun h1 => ?_, fun h1 hdb h2 => ?_, fun h1 => ?_, fun h1 hdb h2 => ?_,
    fun h1 => ?_, fun h1 h2 => ?_⟩
  · simp only [github_repo_request] at h1
    simp only [GitHubPlugin_init]
    rw [github_api_call_fail st http _ h1]
    simp only [ex_bind_err]
    rfl
  · simp only [github_repo_request, github_commits_request] at h1 hdb h2
    simp only [GitHubPlugin_init]
    rw [github_api_call_200 st http _ h1]
    simp only [ex_bind_ok, hdb]
    rw [github_api_call_fail st http _ h2]
    simp only [ex_bind_err]
    rfl
  · simp only [gitlab_project_request] at h1
    simp only [GitlabPlugin_init]
    rw [gitlab_api_call_fail http _ h1]
    simp only [ex_bind_err]
    rfl
  · simp only [gitlab_project_request, gitlab_branch_request] at h1 hdb h2
    simp only [GitlabPlugin_init]
    rw [gitlab_api_call_200 http _ h1]
    simp only [ex_bind_ok, hdb]
    rw [gitlab_api_call_fail http _ h2]
    simp only [ex_bind_err]
    rfl
  · simp only [sourcehut_repo_request] at h1
    simp only [SourceHutPlugin_init]
    rw [sourcehut_api_call_fail st http _ h1]
    simp only [ex_bind_err]
    rfl
  · simp only [sourcehut_repo_request, sourcehut_log_request] at h1 h2
    simp only [SourceHutPlugin_init]
    rw [sourcehut_api_call_200 st http _ h1]
    simp only [ex_bind_ok]
    rw [sourcehut_api_call_fail st http _ h2]
    simp only [ex_bind_err]
    rfl

/-- Witness for C2: the all-404 oracle makes the concrete GitHub
resolution fail with the error carrying the body `nope`. -/
theorem non_success_status_fails_resolution_witness :
    GitHubPlugin_init fixSt http404 psGhPlain =
      Except.error (.hostApiError "GitHub API call failed: nope") :=
  (non_success_status_fails_resolution fixSt http404 psGhPlain "main").1 (by decide)

/-- C8 counterexample: a GitLab branch response whose `committed_date`
(2024-04-02...) and `created_at` (2024-04-01...) name different days.
The resolved `version` is the date of `committed_date`, but the
`updated` date field is parsed from `created_at` — although
`committed_date` itself parses to 2024-04-02 in the claimed format —
so not every date field derives from `committed_date`. -/
theorem gitlab_updated_uses_created_at :
    GitlabPlugin_init fixSt glHttp psGl = Except.ok glPlug ∧
    glPlug.version = "2024-04-02" ∧
    glPlug.updated = some ⟨2024, 4, 1⟩ ∧
    strptime_date_gitlab "2024-04-02T08:30:00.123456+00:00" = some ⟨2024, 4, 2⟩ ∧
    glPlug.updated ≠ some ⟨2024, 4, 2⟩ :=
  ⟨rfl, rfl, rfl, rfl, by decide⟩

/-- C8 amended: in a GitLab resolution, `version` is derived from the
branch lookup's `committed_date` by taking the text before the first
`T` (no format validation), while the `updated` date is parsed from the
separate `created_at` field in the sub-second-precision timezone-offset
format and reduced to date-only. -/
theorem gitlab_date_fields (st : ModuleState) (http : Request → HttpResponse)
    (ps : PluginSpec) (p : VimPlugin) :
    GitlabPlugin_init st http ps = Except.ok p →
    ∃ default_branch api_callback latest_commit committed_date created_at d,
      gitlab_api_call http ("projects/" ++ urlquote (ps.owner ++ "/" ++ ps.repo) ++
        "/repository/branches/" ++ default_branch) = Except.ok api_callback ∧
      pyGetItem api_callback "commit" = Except.ok latest_commit ∧
      (pyGetItem latest_commit "committed_date" >>= asStr) = Except.ok committed_date ∧
      (pyGetItem latest_commit "created_at" >>= asStr) = Except.ok created_at ∧
      strptime_date_gitlab created_at = some d ∧
      p.version = splitHead committed_date "T" ∧
      p.updated = some d := by
  intro h
  obtain ⟨ri, db, cb, lc, sha, cd, dj, hp, lic, ca, upd,
    -, -, h3, h4, -, h6, -, -, -, h10, h11, hrec⟩ := GitlabPlugin_init_ok_inv h
  subst hrec
  refine ⟨db, cb, lc, cd, ca, upd, h3, h4, h6, h10, ?_, rfl, rfl⟩
  unfold parseOrValueError at h11
  cases hs : strptime_date_gitlab ca with
  | none => rw [hs] at h11; exact absurd h11 (by simp)
  | some d =>
    rw [hs] at h11
    exact congrArg some (Except.ok.inj h11)

/-- Witness for C8: the concrete GitLab resolution, with `version`
`2024-04-02` from `committed_date` and `updated` 2024-04-01 parsed
from `created_at`. -/
theorem gitlab_date_fields_witness :
    ∃ default_branch api_callback latest_commit committed_date created_at d,
      gitlab_api_call glHttp ("projects/" ++ urlquote (psGl.owner ++ "/" ++ psGl.repo) ++
        "/repository/branches/" ++ default_branch) = Except.ok api_callback ∧
      pyGetItem api_callback "commit" = Except.ok latest_commit ∧
      (pyGetItem latest_commit "committed_date" >>= asStr) = Except.ok committed_date ∧
      (pyGetItem latest_commit "created_at" >>= asStr) = Except.ok created_at ∧
      strptime_date_gitlab created_at = some d ∧
      glPlug.version = splitHead committed_date "T" ∧
      glPlug.updated = some d :=
  gitlab_date_fields fixSt glHttp psGl glPlug rfl
